import Mathlib

/-!
Shallow embedding of `include/rosinterface_handler/smart_subscriber.hpp`
(class `rosinterface_handler::SmartSubscriber`).

The class wraps a `message_filters::Subscriber` and toggles the underlying
subscription depending on whether any tracked publisher currently has
subscribers.  External collaborators are modelled explicitly:

* `Env` models the live state of the external publishers a `SmartSubscriber`
  tracks: each publisher is identified by a `Nat` id, and the closures
  `getTopic` / `getNumSubscribers` captured in `PublisherInfo` become lookups
  `Env.pubTopic` / `Env.pubSubs` applied to the stored id.
* `Registry` models `ros::TopicManager` publication lookup: an association
  list from topic name to the number of registrations of this component's
  `callback_` on that publication (`lookupPublication` failing = topic absent).
* `SubState` models the fields of the C++ object that the claims talk about
  (`publisherInfo_`, `smart_`, and the underlying subscription state observed
  through `isSubscribed()`).
* Calling `std::vector::back()` on an empty vector is undefined behaviour;
  the helpers that perform it (`addCallback` / `removeCallback`) therefore
  return `Option`, with `none` marking the undefined-behaviour case.
-/

namespace SmartSubscriber

/-- One entry of `publisherInfo_` (struct `PublisherInfo` in the source):
the two stored accessors are closures over the tracked publisher, modelled by
keeping the publisher's id; `topic` is the stored (last recorded) topic name. -/
structure PubInfo where
  pubId : Nat
  topic : String
deriving DecidableEq, Repr

/-- Live state of the external publishers: `pubTopic i` is what
`getTopic()` on publisher `i` returns now, `pubSubs i` what
`getNumSubscribers()` returns now. -/
structure Env where
  pubTopic : Nat → String
  pubSubs : Nat → Nat

/-- The topic manager: topic name ↦ number of registrations of this
component's callback object on that publication; a topic absent from the
list is one for which `lookupPublication` returns null. -/
abbrev Registry := List (String × Nat)

/-- Models `ros::TopicManager::instance()->lookupPublication(topic)`. -/
def lookupPub (reg : Registry) (t : String) : Option Nat :=
  match reg with
  | [] => none
  | (t', n) :: rest => if t' = t then some n else lookupPub rest t

/-- Replace the registration count stored for topic `t` (first entry wins,
as in `lookupPub`). -/
def setPub (reg : Registry) (t : String) (n : Nat) : Registry :=
  match reg with
  | [] => []
  | (t', n') :: rest => if t' = t then (t', n) :: rest else (t', n') :: setPub rest t n

/-- Performs `lookupPublication(key)` followed by `pub->addCallbacks(callback_)`;
a missing publication is silently skipped (the `else {}` branch). -/
def addCallbackAt (reg : Registry) (key : String) : Registry :=
  match lookupPub reg key with
  | none => reg
  | some n => setPub reg key (n + 1)

/-- Performs `lookupPublication(key)` followed by `pub->removeCallbacks(callback_)`;
a missing publication is silently skipped.  Removing a callback that is not
registered leaves the count at zero. -/
def removeCallbackAt (reg : Registry) (key : String) : Registry :=
  match lookupPub reg key with
  | none => reg
  | some n => setPub reg key (n - 1)

/-- Fields of the C++ object: `publisherInfo_`, `smart_` (default `true`),
and the underlying subscription state (`isSubscribed()`). -/
structure SubState where
  publisherInfo : List PubInfo
  smart : Bool
  subscribed : Bool
deriving DecidableEq, Repr

/-- The aggregate predicate computed inside `subscribeCallback`:
`!smart() || std::any_of(publisherInfo_, [](p){ return p.getNumSubscriber() > 0; })`. -/
def shouldSubscribe (env : Env) (s : SubState) : Bool :=
  !s.smart || s.publisherInfo.any (fun p => 0 < env.pubSubs p.pubId)

/-- The subscribe/unsubscribe calls `subscribeCallback` can issue. -/
inductive Action where
  | subscribeAct
  | unsubscribeAct
deriving DecidableEq, Repr

/-- Embeds `SmartSubscriber::subscribeCallback`, also recording which
subscribe/unsubscribe calls it issues.  Mirrors the source: read
`isSubscribed()`, compute the predicate, and issue at most one call when the
two disagree. -/
def subscribeCallbackA (env : Env) (s : SubState) : SubState × List Action :=
  let subscribed := s.subscribed
  let subscribe := shouldSubscribe env s
  if subscribe && !subscribed then
    ({ s with subscribed := true }, [.subscribeAct])
  else if !subscribe && subscribed then
    ({ s with subscribed := false }, [.unsubscribeAct])
  else
    (s, [])

/-- Embeds `SmartSubscriber::subscribeCallback`, state effect only. -/
def subscribeCallback (env : Env) (s : SubState) : SubState :=
  (subscribeCallbackA env s).1

/-- Private helper `SmartSubscriber::addCallback(topic)`.  The lookup key is
`publisherInfo_.back().topic`, NOT the `topic` argument; `back()` on an empty
vector is undefined behaviour (`none`). -/
def addCallback (s : SubState) (reg : Registry) ( t : String) : Option Registry :=
  match s.publisherInfo.getLast? with
  | none => none
  | some last => some (addCallbackAt reg last.topic)

/-- Private helper `SmartSubscriber::removeCallback(topic)`.  Same shape as
`addCallback`: the lookup key is `publisherInfo_.back().topic`. -/
def removeCallback (s : SubState) (reg : Registry) ( t : String) : Option Registry :=
  match s.publisherInfo.getLast? with
  | none => none
  | some last => some (removeCallbackAt reg last.topic)

/-- Embeds `SmartSubscriber::addPublisher`: push a record whose stored topic is the
publisher's current topic, register the callback (via `addCallback`, whose
key is the freshly pushed `back()` - here never undefined), then
re-evaluate with `subscribeCallback`. -/
def addPublisher (env : Env) (s : SubState) (reg : Registry) (pubId : Nat) :
    SubState × Registry :=
  let s1 : SubState :=
    { s with publisherInfo := s.publisherInfo ++ [⟨pubId, env.pubTopic pubId⟩] }
  let reg1 := (addCallback s1 reg (env.pubTopic pubId)).getD reg
  (subscribeCallback env s1, reg1)

/-- Models `std::find_if` over `publisherInfo_` followed by `erase` of the found
iterator: `none` when no element satisfies the predicate, otherwise the list
with the FIRST matching element removed. -/
def eraseFirstMatch (q : PubInfo → Bool) : List PubInfo → Option (List PubInfo)
  | [] => none
  | p :: rest => if q p then some rest else (eraseFirstMatch q rest).map (p :: ·)

/-- Embeds `SmartSubscriber::removePublisher`: find the first record whose LIVE
topic (`topic == pubInfo.getTopic()`) equals `t`; if none, return `false`
with everything unchanged; otherwise erase it and call `removeCallback t` -
whose `back()` access is undefined behaviour (`none`) when the erased record
was the only one. -/
def removePublisher (env : Env) (s : SubState) (reg : Registry) (t : String) :
    Option (Bool × SubState × Registry) :=
  match eraseFirstMatch (fun p => t == env.pubTopic p.pubId) s.publisherInfo with
  | none => some (false, s, reg)
  | some newList =>
    let s1 : SubState := { s with publisherInfo := newList }
    match removeCallback s1 reg t with
    | none => none
    | some reg1 => some (true, s1, reg1)

/-- One iteration step of the `updateTopics` loop, processing the record at
index `i` of the current list (the list is mutated in place, so later
iterations see earlier updates).  `addCallback`/`removeCallback` are called
on the whole current state, hence use `back().topic`. -/
def updateTopicsStep (env : Env) (sr : SubState × Registry) (i : Nat) :
    SubState × Registry :=
  let (s, reg) := sr
  match s.publisherInfo[i]? with
  | none => (s, reg)
  | some p =>
    let currTopic := env.pubTopic p.pubId
    if currTopic ≠ p.topic then
      let reg1 := (addCallback s reg currTopic).getD reg
      let reg2 := (removeCallback s reg1 p.topic).getD reg1
      ({ s with publisherInfo := s.publisherInfo.set i { p with topic := currTopic } },
       reg2)
    else
      (s, reg)

/-- Embeds `SmartSubscriber::updateTopics`: iterate over `publisherInfo_` front to
back, re-registering (per the source's intent) records whose live topic
changed. -/
def updateTopics (env : Env) (s : SubState) (reg : Registry) : SubState × Registry :=
  (List.range s.publisherInfo.length).foldl (updateTopicsStep env) (s, reg)

/-- Embeds `setSmart`: store the flag, then re-evaluate. -/
def setSmart (env : Env) (s : SubState) (b : Bool) : SubState :=
  subscribeCallback env { s with smart := b }

/-- Embeds `subscribe(nh, topic, queue_size, ...)`: the base-class subscribe makes
the underlying handle subscribed, then `subscribeCallback` re-evaluates. -/
def subscribeOp (env : Env) (s : SubState) : SubState :=
  subscribeCallback env { s with subscribed := true }

/-- The two function pointers of the `ros::SubscriberCallbacks` object
(`connect_` / `disconnect_`): either the bound `subscribeCallback` or the
no-op lambda installed by the destructor. -/
inductive Hook where
  | invoke
  | noop
deriving DecidableEq, Repr

/-- The retrievable callback object (`callback_`). -/
structure Callbacks where
  connect : Hook
  disconnect : Hook
deriving DecidableEq, Repr

/-- Delivering one hook of the callback object to the component. -/
def runHook (h : Hook) (env : Env) (s : SubState) : SubState :=
  match h with
  | .invoke => subscribeCallback env s
  | .noop => s

/-- The destructor loop `for (auto& pub : publisherInfo_) removeCallback(pub.topic);`
- `publisherInfo_` itself is not modified while iterating, so every
`removeCallback` call sees the same (non-empty) list. -/
def destructLoop (s : SubState) : List PubInfo → Registry → Registry
  | [], reg => reg
  | p :: rest, reg => destructLoop s rest ((removeCallback s reg p.topic).getD reg)

/-- Embeds `SmartSubscriber::~SmartSubscriber`: deregister the callback for every
tracked record, then void both hooks of the callback object. -/
def destruct (s : SubState) (reg : Registry) (_cbs : Callbacks) :
    Registry × Callbacks :=
  (destructLoop s s.publisherInfo reg, ⟨.noop, .noop⟩)

/-- Result of the `std::stoi` call in the constructor. -/
inductive StoiResult where
  | ok (n : Int)
  | invalidArg
  | outOfRange
deriving DecidableEq, Repr

/-- Models `isspace` for the default C locale, as used by `std::stoi`/`strtol`. -/
def isCSpace (c : Char) : Bool :=
  c.toNat = 32 || (9 ≤ c.toNat && c.toNat ≤ 13)

/-- Models `std::stoi(str)` (base 10): skip leading whitespace, optional sign, then
a non-empty run of digits; no digits ⇒ `std::invalid_argument`; a value
outside the `int` range ⇒ `std::out_of_range`. -/
def stoi (str : String) : StoiResult :=
  let cs := str.toList.dropWhile isCSpace
  let signAndRest : Int × List Char :=
    match cs with
    | '+' :: r => (1, r)
    | '-' :: r => (-1, r)
    | r => (1, r)
  let ds := signAndRest.2.takeWhile Char.isDigit
  if ds.isEmpty then .invalidArg
  else
    let mag : Nat := ds.foldl (fun a c => a * 10 + (c.toNat - 48)) 0
    let n : Int := signAndRest.1 * (mag : Int)
    if n < -2147483648 || 2147483647 < n then .outOfRange else .ok n

/-- Exceptions that can escape the constructor: only
`std::invalid_argument` is caught, so `std::out_of_range` propagates. -/
inductive CtorError where
  | outOfRangeErr
deriving DecidableEq, Repr

/-- The smart flag established by the constructor from the
`NO_SMART_SUBSCRIBE` environment value (`none` = variable unset): `smart_`
defaults to `true` and `setSmart(false)` runs only when `std::stoi` returns
a value `> 0`. -/
def constructSmart (envVar : Option String) : Except CtorError Bool :=
  match envVar with
  | none => .ok true
  | some v =>
    match stoi v with
    | .ok n => if 0 < n then .ok false else .ok true
    | .invalidArg => .ok true
    | .outOfRange => .error .outOfRangeErr

/-- The rest of the constructor body once the smart flag `sm` is
established: the fresh `message_filters::Subscriber` state (empty tracked
set, not subscribed), the `subscribeCallback` run that `setSmart(false)`
performs when the override fired, then `addPublisher` for every tracked
publisher. -/
def constructRest (env : Env) (sm : Bool) (reg : Registry) (pubIds : List Nat) :
    SubState × Registry :=
  let s0 : SubState := ⟨[], sm, false⟩
  let s0 := if sm then s0 else subscribeCallback env s0
  pubIds.foldl (fun (sr : SubState × Registry) i =>
    addPublisher env sr.1 sr.2 i) (s0, reg)

/-- The whole constructor: establish the smart flag (running
`subscribeCallback` via `setSmart(false)` when the override fires), then
`addPublisher` for every tracked publisher, and hand out the callback object
with both hooks bound to `subscribeCallback`. -/
def construct (env : Env) (envVar : Option String) (reg : Registry)
    (pubIds : List Nat) : Except CtorError (SubState × Registry × Callbacks) :=
  match constructSmart envVar with
  | .error e => .error e
  | .ok sm =>
    let sr := constructRest env sm reg pubIds
    .ok (sr.1, sr.2, ⟨.invoke, .invoke⟩)

/-- The triggering events of the spec's invariant: `subscribe`,
`addPublisher`, `removePublisher`, `setSmart`, and a status-callback
delivery from the registry. -/
inductive Event where
  | subscribeEv
  | addPub (pubId : Nat)
  | removePub (topic : String)
  | setSmartEv (b : Bool)
  | statusCb
deriving DecidableEq, Repr

/-- One triggering event (`none` = the run hits undefined behaviour). -/
def step (env : Env) (e : Event) (s : SubState) (reg : Registry) :
    Option (SubState × Registry) :=
  match e with
  | .subscribeEv => some (subscribeOp env s, reg)
  | .addPub i => some (addPublisher env s reg i)
  | .removePub t => (removePublisher env s reg t).map (fun r => (r.2.1, r.2.2))
  | .setSmartEv b => some (setSmart env s b, reg)
  | .statusCb => some (subscribeCallback env s, reg)

/-- A sequence of triggering events. -/
def stepMany (env : Env) : List Event → SubState → Registry →
    Option (SubState × Registry)
  | [], s, reg => some (s, reg)
  | e :: es, s, reg =>
    match step env e s reg with
    | none => none
    | some (s1, reg1) => stepMany env es s1 reg1

/-- The spec's invariant: subscribed iff conditional mode is disabled or
some tracked publication has subscriber count > 0. -/
def inv (env : Env) (s : SubState) : Prop :=
  s.subscribed = shouldSubscribe env s

instance (env : Env) (s : SubState) : Decidable (inv env s) := by
  unfold inv; infer_instance

/-! Basic lemmas about `subscribeCallback`. -/

theorem subscribeCallbackA_fst_subscribed (env : Env) (s : SubState) :
    ((subscribeCallbackA env s).1).subscribed = shouldSubscribe env s := by
  unfold subscribeCallbackA
  cases h1 : shouldSubscribe env s <;> cases h2 : s.subscribed <;> simp [h1, h2]

theorem subscribeCallbackA_fst_smart (env : Env) (s : SubState) :
    ((subscribeCallbackA env s).1).smart = s.smart := by
  unfold subscribeCallbackA
  cases h1 : shouldSubscribe env s <;> cases h2 : s.subscribed <;> simp [h1, h2]

theorem subscribeCallbackA_fst_publisherInfo (env : Env) (s : SubState) :
    ((subscribeCallbackA env s).1).publisherInfo = s.publisherInfo := by
  unfold subscribeCallbackA
  cases h1 : shouldSubscribe env s <;> cases h2 : s.subscribed <;> simp [h1, h2]

theorem subscribeCallbackA_acts_length (env : Env) (s : SubState) :
    (subscribeCallbackA env s).2.length ≤ 1 := by
  unfold subscribeCallbackA
  cases h1 : shouldSubscribe env s <;> cases h2 : s.subscribed <;> simp [h1, h2]

theorem subscribeCallbackA_of_stable (env : Env) (s : SubState)
    (h : s.subscribed = shouldSubscribe env s) : subscribeCallbackA env s = (s, []) := by
  unfold subscribeCallbackA
  cases h1 : shouldSubscribe env s <;> rw [h1] at h <;> simp [h1, h]

theorem subscribeCallback_subscribed (env : Env) (s : SubState) :
    (subscribeCallback env s).subscribed = shouldSubscribe env s :=
  subscribeCallbackA_fst_subscribed env s

theorem subscribeCallback_smart (env : Env) (s : SubState) :
    (subscribeCallback env s).smart = s.smart :=
  subscribeCallbackA_fst_smart env s

theorem subscribeCallback_publisherInfo (env : Env) (s : SubState) :
    (subscribeCallback env s).publisherInfo = s.publisherInfo :=
  subscribeCallbackA_fst_publisherInfo env s

theorem shouldSubscribe_congr (env : Env) (s s' : SubState)
    (hsm : s'.smart = s.smart) (hpi : s'.publisherInfo = s.publisherInfo) :
    shouldSubscribe env s' = shouldSubscribe env s := by
  unfold shouldSubscribe
  rw [hsm, hpi]

theorem inv_subscribeCallback (env : Env) (s : SubState) :
    inv env (subscribeCallback env s) := by
  unfold inv
  rw [subscribeCallback_subscribed,
    shouldSubscribe_congr env s (subscribeCallback env s)
      (subscribeCallback_smart env s) (subscribeCallback_publisherInfo env s)]

/-! Lemmas about `eraseFirstMatch`. -/

theorem eraseFirstMatch_eq_none_iff (q : PubInfo → Bool) (l : List PubInfo) :
    eraseFirstMatch q l = none ↔ ∀ p ∈ l, q p = false := by
  induction l with
  | nil => simp [eraseFirstMatch]
  | cons a rest ih =>
    cases ha : q a with
    | true => simp [eraseFirstMatch, ha]
    | false => simp [eraseFirstMatch, ha, ih]

theorem eraseFirstMatch_first (q : PubInfo → Bool) (l1 l2 : List PubInfo)
    (p : PubInfo) (hp : q p = true) (h1 : ∀ x ∈ l1, q x = false) :
    eraseFirstMatch q (l1 ++ p :: l2) = some (l1 ++ l2) := by
  induction l1 with
  | nil => simp [eraseFirstMatch, hp]
  | cons a rest ih =>
    have ha : q a = false := h1 a (List.mem_cons_self a rest)
    have ih' := ih fun x hx => h1 x (List.mem_cons_of_mem a hx)
    simp [eraseFirstMatch, ha, ih']

/-! Lemmas about `addPublisher` and the constructor fold. -/

theorem addPublisher_fst_smart (env : Env) (s : SubState) (reg : Registry)
    (i : Nat) : ((addPublisher env s reg i).1).smart = s.smart := by
  unfold addPublisher
  rw [subscribeCallback_smart]

theorem addPublisher_fst_subscribed_of_not_smart (env : Env) (s : SubState)
    (reg : Registry) (i : Nat) (h : s.smart = false) :
    ((addPublisher env s reg i).1).subscribed = true := by
  unfold addPublisher
  rw [subscribeCallback_subscribed]
  unfold shouldSubscribe
  simp [h]

theorem ctorFold_smart (env : Env) (pubIds : List Nat) :
    ∀ (s : SubState) (reg : Registry),
      ((pubIds.foldl (fun (sr : SubState × Registry) i =>
        addPublisher env sr.1 sr.2 i) (s, reg)).1).smart = s.smart := by
  induction pubIds with
  | nil => intro s reg; rfl
  | cons i rest ih =>
    intro s reg
    rw [List.foldl_cons]
    rcases h : addPublisher env s reg i with ⟨s1, reg1⟩
    have := ih s1 reg1
    rw [this]
    have := addPublisher_fst_smart env s reg i
    rw [h] at this
    exact this

theorem ctorFold_subscribed_of_not_smart (env : Env) (pubIds : List Nat) :
    ∀ (s : SubState) (reg : Registry), s.smart = false → s.subscribed = true →
      ((pubIds.foldl (fun (sr : SubState × Registry) i =>
        addPublisher env sr.1 sr.2 i) (s, reg)).1).subscribed = true := by
  induction pubIds with
  | nil => intro s reg _ h2; exact h2
  | cons i rest ih =>
    intro s reg h1 h2
    rw [List.foldl_cons]
    rcases h : addPublisher env s reg i with ⟨s1, reg1⟩
    refine ih s1 reg1 ?_ ?_
    · have := addPublisher_fst_smart env s reg i
      rw [h] at this
      rw [this, h1]
    · have := addPublisher_fst_subscribed_of_not_smart env s reg i h1
      rw [h] at this
      exact this

theorem constructRest_smart (env : Env) (sm : Bool) (reg : Registry)
    (pubIds : List Nat) : ((constructRest env sm reg pubIds).1).smart = sm := by
  unfold constructRest
  rw [ctorFold_smart]
  cases sm with
  | true => rfl
  | false => simp [subscribeCallback_smart]

theorem constructRest_subscribed_of_not_smart (env : Env) (reg : Registry)
    (pubIds : List Nat) :
    ((constructRest env false reg pubIds).1).subscribed = true := by
  unfold constructRest
  refine ctorFold_subscribed_of_not_smart env pubIds _ reg ?_ ?_
  · simp [subscribeCallback_smart]
  · simp only [Bool.false_eq_true, if_false]
    rw [subscribeCallback_subscribed]
    rfl

theorem construct_eq_ok (env : Env) (envVar : Option String) (reg : Registry)
    (pubIds : List Nat) (sm : Bool) (h : constructSmart envVar = .ok sm) :
    construct env envVar reg pubIds =
      Except.ok ((constructRest env sm reg pubIds).1,
        (constructRest env sm reg pubIds).2, ⟨Hook.invoke, Hook.invoke⟩) := by
  unfold construct
  rw [h]

theorem construct_eq_error (env : Env) (envVar : Option String) (reg : Registry)
    (pubIds : List Nat) (e : CtorError) (h : constructSmart envVar = .error e) :
    construct env envVar reg pubIds = Except.error e := by
  unfold construct
  rw [h]

theorem constructSmart_of_pos (v : String) (n : Int) (hv : stoi v = .ok n)
    (hn : 0 < n) : constructSmart (some v) = .ok false := by
  simp [constructSmart, hv, hn]

theorem constructSmart_of_nonpos (v : String) (n : Int) (hv : stoi v = .ok n)
    (hn : n ≤ 0) : constructSmart (some v) = .ok true := by
  simp [constructSmart, hv]
  omega

theorem constructSmart_of_invalidArg (v : String)
    (hv : stoi v = .invalidArg) : constructSmart (some v) = .ok true := by
  simp [constructSmart, hv]

theorem constructSmart_of_outOfRange (v : String)
    (hv : stoi v = .outOfRange) :
    constructSmart (some v) = .error .outOfRangeErr := by
  simp [constructSmart, hv]

/-! Claim theorems. -/

/-- C2: for every mode flag and every tracked set with subscriber counts
`c1..cn` (n = 0 included), after `subscribeCallback` runs the component is
subscribed iff `!m || some ci > 0`; with no tracked publications it is
subscribed iff `!m`. -/
theorem C2_predicate_correctness (env : Env) (s : SubState) :
    ((subscribeCallback env s).subscribed =
      (!s.smart || s.publisherInfo.any fun p => 0 < env.pubSubs p.pubId))
    ∧ ((subscribeCallback env { s with publisherInfo := [] }).subscribed = !s.smart) := by
  constructor
  · exact subscribeCallback_subscribed env s
  · rw [subscribeCallback_subscribed]
    unfold shouldSubscribe
    simp

/-- C3: `subscribeCallback` is idempotent - one invocation issues at most one
subscribe/unsubscribe call, and running it again on the result (same smart
flag, tracked set and counts) issues no call and leaves the state unchanged. -/
theorem C3_idempotence (env : Env) (s : SubState) :
    (subscribeCallbackA env s).2.length ≤ 1
    ∧ subscribeCallbackA env ((subscribeCallbackA env s).1) =
        ((subscribeCallbackA env s).1, []) := by
  refine ⟨subscribeCallbackA_acts_length env s, ?_⟩
  apply subscribeCallbackA_of_stable
  rw [subscribeCallbackA_fst_subscribed,
    shouldSubscribe_congr env s ((subscribeCallbackA env s).1)
      (subscribeCallbackA_fst_smart env s) (subscribeCallbackA_fst_publisherInfo env s)]

/-- C9: after the destructor runs, both hooks of the previously retrievable
callback object are no-ops - invoking either leaves any component state
untouched. -/
theorem C9_destruction_safety (s : SubState) (reg : Registry) (cbs : Callbacks) :
    (destruct s reg cbs).2.connect = Hook.noop
    ∧ (destruct s reg cbs).2.disconnect = Hook.noop
    ∧ (∀ (env : Env) (st : SubState),
        runHook ((destruct s reg cbs).2.connect) env st = st
        ∧ runHook ((destruct s reg cbs).2.disconnect) env st = st) :=
  ⟨rfl, rfl, fun _ _ => ⟨rfl, rfl⟩⟩

/-- Concrete fixture for C8: the tracked publisher's live topic is "new"
while the stored record still says "old"; the registry knows both topics,
with the callback registered once under "old" and not at all under "new". -/
def envC8 : Env := ⟨fun _ => "new", fun _ => 0⟩

/-- C8 (code bug): after `updateTopics` detects the rename, the stored name
is updated, but the callback is NOT registered under the new topic (count at
"new" stays 0) and the stale registration under "old" is NOT removed (count
stays 1): both `addCallback` and `removeCallback` look up
`publisherInfo_.back().topic` - the stale name - instead of their argument. -/
theorem C8_topic_rename_not_followed :
    updateTopics envC8 ⟨[⟨0, "old"⟩], true, false⟩ [("old", 1), ("new", 0)] =
      (⟨[⟨0, "new"⟩], true, false⟩, [("old", 1), ("new", 0)])
    ∧ lookupPub (updateTopics envC8 ⟨[⟨0, "old"⟩], true, false⟩
        [("old", 1), ("new", 0)]).2 "new" = some 0
    ∧ lookupPub (updateTopics envC8 ⟨[⟨0, "old"⟩], true, false⟩
        [("old", 1), ("new", 0)]).2 "old" = some 1 := by
  refine ⟨by decide, by decide, by decide⟩

/-- Concrete fixture for C10: exactly one tracked publisher, on topic
"only". -/
def envC10 : Env := ⟨fun _ => "only", fun _ => 1⟩

/-- C10 (code bug): when `removePublisher` erases the only tracked record,
the subsequent `removeCallback` evaluates `publisherInfo_.back()` on the
now-empty vector - undefined behaviour, modelled as `none`. -/
theorem C10_back_access_on_empty_list :
    eraseFirstMatch (fun p => "only" == envC10.pubTopic p.pubId) [⟨0, "only"⟩] =
      some []
    ∧ removeCallback ⟨[], true, true⟩ [("only", 1)] "only" = none
    ∧ removePublisher envC10 ⟨[⟨0, "only"⟩], true, true⟩ [("only", 1)] "only" =
        none := by
  refine ⟨by decide, rfl, by decide⟩

/-- Concrete fixture for C1: publisher 0 publishes on "a" with 0
subscribers, publisher 1 on "b" with 1 subscriber. -/
def envC1 : Env := ⟨fun i => if i = 0 then "a" else "b", fun i => if i = 0 then 0 else 1⟩

/-- C1 (counterexample): starting from a fresh component (smart mode on),
track publishers 0 and 1 - the component subscribes because "b" has a
subscriber and the invariant holds - then `removePublisher "b"`.  The call
succeeds, but no re-evaluation happens: the component is still subscribed
although smart mode is on and the only remaining tracked publication has 0
subscribers, so the claimed invariant is false after this triggering event. -/
theorem C1_counterexample :
    stepMany envC1 [.addPub 0, .addPub 1] ⟨[], true, false⟩ [("a", 0), ("b", 0)] =
      some (⟨[⟨0, "a"⟩, ⟨1, "b"⟩], true, true⟩, [("a", 1), ("b", 1)])
    ∧ inv envC1 ⟨[⟨0, "a"⟩, ⟨1, "b"⟩], true, true⟩
    ∧ step envC1 (.removePub "b") ⟨[⟨0, "a"⟩, ⟨1, "b"⟩], true, true⟩ [("a", 1), ("b", 1)] =
        some (⟨[⟨0, "a"⟩], true, true⟩, [("a", 0), ("b", 1)])
    ∧ ¬ inv envC1 ⟨[⟨0, "a"⟩], true, true⟩ := by
  refine ⟨by decide, by decide, by decide, by decide⟩

/-- C1 (amended): the invariant "subscribed iff smart mode is disabled or
some tracked publication has subscriber count > 0" is re-established by
every triggering event EXCEPT `removePublisher`, which performs no
re-evaluation (the state may violate the invariant until the next event). -/
theorem C1_invariant_after_events (env : Env) (e : Event) (s : SubState)
    (reg : Registry) (s' : SubState) (reg' : Registry)
    (hne : ∀ t, e ≠ Event.removePub t)
    (hstep : step env e s reg = some (s', reg')) : inv env s' := by
  cases e with
  | removePub t => exact absurd rfl (hne t)
  | subscribeEv =>
    simp only [step, Option.some.injEq, Prod.mk.injEq] at hstep
    rw [← hstep.1]
    exact inv_subscribeCallback env _
  | addPub i =>
    simp only [step] at hstep
    have h : (addPublisher env s reg i).1 = s' := congrArg Prod.fst (Option.some.inj hstep)
    rw [← h]
    exact inv_subscribeCallback env _
  | setSmartEv b =>
    simp only [step, Option.some.injEq, Prod.mk.injEq] at hstep
    rw [← hstep.1]
    exact inv_subscribeCallback env _
  | statusCb =>
    simp only [step, Option.some.injEq, Prod.mk.injEq] at hstep
    rw [← hstep.1]
    exact inv_subscribeCallback env _

/-- Concrete fixture for the C1 witness: one tracked publisher on "w" with
0 subscribers. -/
def envC1w : Env := ⟨fun _ => "w", fun _ => 0⟩

/-- Witness for the amended C1 at a concrete input: a status-callback
delivery on a smart, unsubscribed component with one subscriber-less tracked
publication leaves it unsubscribed, satisfying the invariant. -/
theorem C1_invariant_after_events_witness :
    inv envC1w ⟨[⟨0, "w"⟩], true, false⟩ :=
  C1_invariant_after_events envC1w Event.statusCb ⟨[⟨0, "w"⟩], true, false⟩ []
    ⟨[⟨0, "w"⟩], true, false⟩ []
    (fun t h => Event.noConfusion h) (by decide)

/-- C4: at construction, a `NO_SMART_SUBSCRIBE` value that `std::stoi`
parses to `n > 0` forces `smart() == false` and the component ends up
subscribed whatever the tracked subscriber counts are; an unset variable or
one parsing to `n ≤ 0` leaves `smart() == true`.  (The variable is consulted
only by the constructor: no other operation of the model takes it as an
input.) -/
theorem C4_mode_override (env : Env) (reg : Registry) (pubIds : List Nat)
    (v : String) (n : Int) (hv : stoi v = StoiResult.ok n) :
    ((construct env none reg pubIds).toOption.map (fun r => r.1.smart) = some true)
    ∧ (0 < n → (construct env (some v) reg pubIds).toOption.map
        (fun r => (r.1.smart, r.1.subscribed)) = some (false, true))
    ∧ (n ≤ 0 → (construct env (some v) reg pubIds).toOption.map
        (fun r => r.1.smart) = some true) := by
  refine ⟨?_, ?_, ?_⟩
  · rw [construct_eq_ok env none reg pubIds true rfl]
    simp only [Except.toOption, Option.map]
    rw [constructRest_smart]
  · intro hn
    rw [construct_eq_ok env (some v) reg pubIds false
      (constructSmart_of_pos v n hv hn)]
    simp only [Except.toOption, Option.map, Option.some.injEq, Prod.mk.injEq]
    exact ⟨constructRest_smart env false reg pubIds,
      constructRest_subscribed_of_not_smart env reg pubIds⟩
  · intro hn
    rw [construct_eq_ok env (some v) reg pubIds true
      (constructSmart_of_nonpos v n hv hn)]
    simp only [Except.toOption, Option.map]
    rw [constructRest_smart]

/-- Concrete env fixture for the C4/C5 witnesses. -/
def envC45 : Env := ⟨fun _ => "p", fun _ => 0⟩

/-- Witness for C4 at concrete inputs: `NO_SMART_SUBSCRIBE=2` yields
`smart() == false` and a subscribed component even though the single tracked
publisher has 0 subscribers; unset and `NO_SMART_SUBSCRIBE=0` yield
`smart() == true`. -/
theorem C4_mode_override_witness :
    ((construct envC45 none [("p", 0)] [7]).toOption.map (fun r => r.1.smart) =
      some true)
    ∧ ((construct envC45 (some "2") [("p", 0)] [7]).toOption.map
        (fun r => (r.1.smart, r.1.subscribed)) = some (false, true))
    ∧ ((construct envC45 (some "0") [("p", 0)] [7]).toOption.map
        (fun r => r.1.smart) = some true) :=
  ⟨(C4_mode_override envC45 [("p", 0)] [7] "2" 2 (by decide)).1,
   (C4_mode_override envC45 [("p", 0)] [7] "2" 2 (by decide)).2.1 (by decide),
   (C4_mode_override envC45 [("p", 0)] [7] "0" 0 (by decide)).2.2 (by decide)⟩

/-- C5 (counterexample): `NO_SMART_SUBSCRIBE="9999999999"` is an
out-of-range numeral, so `std::stoi` raises `std::out_of_range`, which the
constructor's `catch (const std::invalid_argument&)` does NOT catch: the
exception escapes, and construction does not succeed as the claim states. -/
theorem C5_counterexample :
    construct envC45 (some "9999999999") [("p", 0)] [7] =
      Except.error CtorError.outOfRangeErr := by
  exact construct_eq_error envC45 _ _ _ _ (by simp [constructSmart, stoi, isCSpace])

/-- C5 (amended): a value that does not parse as an integer at all
(`std::invalid_argument`) is silently ignored and construction succeeds with
conditional mode enabled; but an out-of-range numeral makes the constructor
raise (`std::out_of_range` propagates). -/
theorem C5_malformed_values (env : Env) (reg : Registry) (pubIds : List Nat)
    (v : String) (hv : stoi v = StoiResult.invalidArg) :
    ((construct env (some v) reg pubIds).toOption.map (fun r => r.1.smart) = some true)
    ∧ (∀ v', stoi v' = StoiResult.outOfRange →
        construct env (some v') reg pubIds = Except.error CtorError.outOfRangeErr) := by
  constructor
  · rw [construct_eq_ok env (some v) reg pubIds true
      (constructSmart_of_invalidArg v hv)]
    simp only [Except.toOption, Option.map]
    rw [constructRest_smart]
  · intro v' hv'
    exact construct_eq_error env (some v') reg pubIds _
      (constructSmart_of_outOfRange v' hv')

/-- Witness for the amended C5 at concrete inputs: `NO_SMART_SUBSCRIBE=abc`
is ignored (smart mode stays on), while `-9999999999` makes construction
fail. -/
theorem C5_malformed_values_witness :
    ((construct envC45 (some "abc") [("p", 0)] [7]).toOption.map
      (fun r => r.1.smart) = some true)
    ∧ (construct envC45 (some "-9999999999") [("p", 0)] [7] =
        Except.error CtorError.outOfRangeErr) :=
  ⟨(C5_malformed_values envC45 [("p", 0)] [7] "abc" (by decide)).1,
   (C5_malformed_values envC45 [("p", 0)] [7] "abc" (by decide)).2
     "-9999999999" (by decide)⟩

theorem addCallback_of_getLast (s : SubState) (reg : Registry) (t : String)
    (last : PubInfo) (h : s.publisherInfo.getLast? = some last) :
    addCallback s reg t = some (addCallbackAt reg last.topic) := by
  unfold addCallback
  rw [h]

theorem removeCallback_of_getLast (s : SubState) (reg : Registry) (t : String)
    (last : PubInfo) (h : s.publisherInfo.getLast? = some last) :
    removeCallback s reg t = some (removeCallbackAt reg last.topic) := by
  unfold removeCallback
  rw [h]

theorem removePublisher_of_erase_some (env : Env) (s : SubState) (reg : Registry)
    (t : String) (newList : List PubInfo)
    (h : eraseFirstMatch (fun p => t == env.pubTopic p.pubId) s.publisherInfo =
      some newList)
    (last : PubInfo) (hl : newList.getLast? = some last) :
    removePublisher env s reg t =
      some (true, { s with publisherInfo := newList },
        removeCallbackAt reg last.topic) := by
  unfold removePublisher
  simp only [h]
  rw [removeCallback_of_getLast { s with publisherInfo := newList } reg t last hl]

/-- Concrete fixture for the C6 counterexample: one tracked publisher on
topic "solo". -/
def envC6 : Env := ⟨fun _ => "solo", fun _ => 2⟩

/-- C6 (counterexample): with exactly one tracked record, matching the given
topic, `removePublisher` does not return `true` - after erasing the record
it calls `removeCallback`, which evaluates `publisherInfo_.back()` on the
now-empty vector (undefined behaviour, modelled as `none`). -/
theorem C6_counterexample :
    (∃ p ∈ ([⟨0, "solo"⟩] : List PubInfo), envC6.pubTopic p.pubId = "solo")
    ∧ removePublisher envC6 ⟨[⟨0, "solo"⟩], true, true⟩ [("solo", 1)] "solo" =
        none := by
  refine ⟨⟨⟨0, "solo"⟩, by decide, rfl⟩, by decide⟩

/-- C6 (amended): `removePublisher topic` returns `false` with the entire
state (record list, smart flag, subscription state, registry) unchanged iff
no tracked record's live topic matches; when the FIRST matching record is
erased and at least one record remains, it returns `true` with exactly that
record removed.  (Removing the sole matching record is the undefined
behaviour documented by C10 and is excluded here.) -/
theorem C6_removePublisher_behaviour (env : Env) (s : SubState) (reg : Registry)
    (t : String) :
    (removePublisher env s reg t = some (false, s, reg) ↔
      ∀ p ∈ s.publisherInfo, env.pubTopic p.pubId ≠ t)
    ∧ (∀ l1 p l2, s.publisherInfo = l1 ++ p :: l2 →
        env.pubTopic p.pubId = t →
        (∀ q ∈ l1, env.pubTopic q.pubId ≠ t) →
        l1 ++ l2 ≠ [] →
        ∃ reg', removePublisher env s reg t =
          some (true, { s with publisherInfo := l1 ++ l2 }, reg')) := by
  constructor
  · constructor
    · intro h
      cases heq : eraseFirstMatch (fun p => t == env.pubTopic p.pubId)
          s.publisherInfo with
      | none =>
        intro p hp
        have hq := (eraseFirstMatch_eq_none_iff _ _).mp heq p hp
        simp only [beq_eq_false_iff_ne] at hq
        exact fun hc => hq hc.symm
      | some newList =>
        exfalso
        unfold removePublisher at h
        simp only [heq] at h
        cases hrc : removeCallback { s with publisherInfo := newList } reg t with
        | none => rw [hrc] at h; simp at h
        | some reg1 => rw [hrc] at h; simp at h
    · intro h
      have heq : eraseFirstMatch (fun p => t == env.pubTopic p.pubId)
          s.publisherInfo = none :=
        (eraseFirstMatch_eq_none_iff _ _).mpr fun p hp => by
          simp only [beq_eq_false_iff_ne]
          exact fun hc => (h p hp) hc.symm
      unfold removePublisher
      rw [heq]
  · intro l1 p l2 hsplit hmatch h1 hnil
    obtain ⟨last, hlast⟩ : ∃ last, (l1 ++ l2).getLast? = some last := by
      cases hgl : (l1 ++ l2).getLast? with
      | none => exact absurd (List.getLast?_eq_none_iff.mp hgl) hnil
      | some x => exact ⟨x, rfl⟩
    refine ⟨removeCallbackAt reg last.topic, ?_⟩
    have herase : eraseFirstMatch (fun p => t == env.pubTopic p.pubId)
        s.publisherInfo = some (l1 ++ l2) := by
      rw [hsplit]
      refine eraseFirstMatch_first _ l1 l2 p (by simp [hmatch]) fun x hx => ?_
      simp only [beq_eq_false_iff_ne]
      exact fun hc => (h1 x hx) hc.symm
    exact removePublisher_of_erase_some env s reg t (l1 ++ l2) herase last hlast

/-- Concrete fixture for the C6 witness: publisher 0 on "u" and publisher 1
on "v". -/
def envC6w : Env := ⟨fun i => if i = 0 then "u" else "v", fun _ => 0⟩

/-- Witness for the amended C6 at concrete inputs: removing an untracked
topic returns `false` and changes nothing; removing "v" (tracked, with
another record remaining) returns `true` with exactly that record removed. -/
theorem C6_removePublisher_behaviour_witness :
    removePublisher envC6w ⟨[⟨0, "u"⟩, ⟨1, "v"⟩], true, false⟩
      [("u", 1), ("v", 1)] "zz" =
      some (false, ⟨[⟨0, "u"⟩, ⟨1, "v"⟩], true, false⟩, [("u", 1), ("v", 1)])
    ∧ ∃ reg', removePublisher envC6w ⟨[⟨0, "u"⟩, ⟨1, "v"⟩], true, false⟩
        [("u", 1), ("v", 1)] "v" = some (true, ⟨[⟨0, "u"⟩], true, false⟩, reg') :=
  ⟨(C6_removePublisher_behaviour envC6w ⟨[⟨0, "u"⟩, ⟨1, "v"⟩], true, false⟩
      [("u", 1), ("v", 1)] "zz").1.mpr (by decide),
   (C6_removePublisher_behaviour envC6w ⟨[⟨0, "u"⟩, ⟨1, "v"⟩], true, false⟩
      [("u", 1), ("v", 1)] "v").2 [⟨0, "u"⟩] ⟨1, "v"⟩ [] rfl (by decide)
      (by decide) (by decide)⟩

/-- C7: both internal helpers perform the registry lookup with the stored
topic of the LAST tracked record (`publisherInfo_.back().topic`), ignoring
their `topic` argument entirely (the result does not depend on it); under
pairwise-distinct stored topics, a record's stored topic can equal the
lookup key only if that record is the final element of the collection. -/
theorem C7_callback_lookup_uses_last_record (s : SubState) (reg : Registry)
    (t t' : String) :
    addCallback s reg t = addCallback s reg t'
    ∧ removeCallback s reg t = removeCallback s reg t'
    ∧ ∀ last, s.publisherInfo.getLast? = some last →
        addCallback s reg t = some (addCallbackAt reg last.topic)
        ∧ removeCallback s reg t = some (removeCallbackAt reg last.topic)
        ∧ ∀ (i : Nat) (hi : i < s.publisherInfo.length),
            s.publisherInfo.Pairwise (fun a b => a.topic ≠ b.topic) →
            (s.publisherInfo.get ⟨i, hi⟩).topic = last.topic →
            i = s.publisherInfo.length - 1 := by
  refine ⟨rfl, rfl, ?_⟩
  intro last hlast
  refine ⟨addCallback_of_getLast s reg t last hlast,
    removeCallback_of_getLast s reg t last hlast, ?_⟩
  intro i hi hpw htop
  by_contra hne
  have hnil : s.publisherInfo ≠ [] := by
    intro hc
    rw [hc] at hlast
    exact Option.noConfusion hlast
  have hpos : 0 < s.publisherInfo.length := List.length_pos.mpr hnil
  have hlen : s.publisherInfo.length - 1 < s.publisherInfo.length := by omega
  have hil : i < s.publisherInfo.length - 1 := by omega
  have hgl : s.publisherInfo.get ⟨s.publisherInfo.length - 1, hlen⟩ = last := by
    have h1 := List.getLast?_eq_getElem? s.publisherInfo
    rw [hlast, List.getElem?_eq_getElem hlen] at h1
    rw [List.get_eq_getElem]
    exact (Option.some.inj h1).symm
  have hne' := List.pairwise_iff_get.mp hpw ⟨i, hi⟩
    ⟨s.publisherInfo.length - 1, hlen⟩ hil
  rw [hgl] at hne'
  exact hne' htop

/-- Registry fixture for the C7 witness. -/
def regC7 : Registry := [("x", 0), ("y", 3)]

/-- Witness for C7 at concrete inputs: with records on "x" and "y" (in that
order), `addCallback` gives the same result for arguments "x" and "zzz", the
lookup key is the last record's topic "y", and index 1 is the only index
whose stored topic equals that key. -/
theorem C7_callback_lookup_uses_last_record_witness :
    addCallback ⟨[⟨0, "x"⟩, ⟨1, "y"⟩], true, false⟩ regC7 "x" =
      addCallback ⟨[⟨0, "x"⟩, ⟨1, "y"⟩], true, false⟩ regC7 "zzz"
    ∧ addCallback ⟨[⟨0, "x"⟩, ⟨1, "y"⟩], true, false⟩ regC7 "x" =
        some (addCallbackAt regC7 "y")
    ∧ (1 : Nat) = ([⟨0, "x"⟩, ⟨1, "y"⟩] : List PubInfo).length - 1 :=
  ⟨(C7_callback_lookup_uses_last_record ⟨[⟨0, "x"⟩, ⟨1, "y"⟩], true, false⟩
      regC7 "x" "zzz").1,
   ((C7_callback_lookup_uses_last_record ⟨[⟨0, "x"⟩, ⟨1, "y"⟩], true, false⟩
      regC7 "x" "zzz").2.2 ⟨1, "y"⟩ rfl).1,
   ((C7_callback_lookup_uses_last_record ⟨[⟨0, "x"⟩, ⟨1, "y"⟩], true, false⟩
      regC7 "x" "zzz").2.2 ⟨1, "y"⟩ rfl).2.2 1 (by decide) (by decide) rfl⟩

end SmartSubscriber
